import Mathlib

/-!
Verification of the Turkey-Point-AI-monitor firmware core (ESP32 sketch).

Each definition below is a shallow embedding of the corresponding C++
function of the firmware sketch; the mapping to the source is noted on
every definition.  Bytes are modelled as `Nat` (real streams carry values
below 256), machine `uint32_t` counters wrap explicitly at `2 ^ 32`,
`float` quantities are modelled as `ℚ` (exact field arithmetic) except the
VOC proxy, whose `log10` forces `ℝ`.  Fallible operations return `Option`;
environment nondeterminism (driver results, HTTP status codes, wall
clock) is passed in explicitly through environment structures.
-/

namespace TurkeyPoint

/-! ## SDS011 particulate frame decoder (`readSDS`) -/

/-- SDS011 frame header byte (`SDS_HEADER1 = 0xAA`). -/
def SDS_HEADER1 : Nat := 0xAA

/-- SDS011 secondary header byte (`SDS_HEADER2 = 0xC0`). -/
def SDS_HEADER2 : Nat := 0xC0

/-- SDS011 tail byte (`SDS_TAIL = 0xAB`). -/
def SDS_TAIL : Nat := 0xAB

/-- Validation of the nine bytes following a header byte, exactly as in
`readSDS`: `buf[1] = 0xC0`, `buf[9] = 0xAB`, and the `uint8_t` sum of
`buf[2..7]` equals `buf[8]`.  Here `rest` holds `buf[1..9]`, so index `i`
of `rest` is `buf[i+1]` of the source. -/
def sdsFrameValid (rest : List Nat) : Prop :=
  rest.getD 0 0 = SDS_HEADER2 ∧ rest.getD 8 0 = SDS_TAIL ∧
    (rest.getD 1 0 + rest.getD 2 0 + rest.getD 3 0 + rest.getD 4 0 +
      rest.getD 5 0 + rest.getD 6 0) % 256 = rest.getD 7 0

instance (rest : List Nat) : Decidable (sdsFrameValid rest) := by
  unfold sdsFrameValid; infer_instance

/-- Core scanning loop of `readSDS` (part_001 lines 245-274), on the byte
stream available within the read window.  A byte is discarded until the
header `0xAA` is seen; then the next nine bytes are consumed (the
source's `readBytes(buf + 1, 9)`).  If fewer than nine bytes remain the
source returns to the loop with the stream drained, so the window expires
without a frame (`none`).  On a validation mismatch the source `continue`s
with those nine bytes already consumed.  On success it returns the raw
little-endian words `buf[2] | buf[3] << 8` and `buf[4] | buf[5] << 8`
(for bytes the bitwise OR is addition).  `fuel` bounds the number of loop
iterations; every iteration consumes at least one byte, so `fuel` equal to
the stream length (as used by `sdsScan`) is never exhausted. -/
def sdsScanAux : Nat → List Nat → Option (Nat × Nat)
  | _, [] => none
  | 0, _ :: _ => none
  | fuel + 1, b :: rest =>
    if b = SDS_HEADER1 then
      if 9 ≤ rest.length then
        if sdsFrameValid rest then
          some (rest.getD 1 0 + 256 * rest.getD 2 0,
                rest.getD 3 0 + 256 * rest.getD 4 0)
        else sdsScanAux fuel (rest.drop 9)
      else none
    else sdsScanAux fuel rest

/-- The scanning loop run over a whole available stream. -/
def sdsScan (l : List Nat) : Option (Nat × Nat) := sdsScanAux l.length l

/-- Output conversion of `readSDS`: accepted raw words are divided by `10.0`
(part_001 lines 269-270); the out-parameter pair is modelled as an
`Option` result. -/
def readSDS (stream : List Nat) : Option (ℚ × ℚ) :=
  (sdsScan stream).map (fun p => ((p.1 : ℚ) / 10, (p.2 : ℚ) / 10))

/-- A well-formed 10-byte SDS011 frame, as `Bool`: length 10, header,
secondary header, tail, and checksum equal to the low 8 bits of the sum of
bytes 2..7. -/
def sdsWellFormed (f : List Nat) : Bool :=
  f.length = 10 && f.getD 0 0 = SDS_HEADER1 && decide (sdsFrameValid (f.drop 1))

/-- Whether a byte list contains a well-formed frame as a contiguous run. -/
def streamHasFrame (l : List Nat) : Bool :=
  (List.range l.length).any (fun i => sdsWellFormed ((l.drop i).take 10))

/-! ## Theorems for the decoder claims -/

/-! ## Geiger pulse counter (`onGeigerPulse` and the window-close read) -/

/-- The `uint32_t` modulus for the shared pulse counter `geigerPulses`. -/
def UINT32_MOD : Nat := 2 ^ 32

/-- The interrupt handler (part_001 lines 46-50): one guarded increment of
the shared `uint32_t` counter.  The critical section makes the increment
atomic, so the handler is modelled as an atomic state transition. -/
def onGeigerPulse (c : Nat) : Nat := (c + 1) % UINT32_MOD

/-- The control loop's window-close read-and-reset (part_001 lines
453-457): under the same critical section, read the counter and clear it.
Returns (observed count, new counter value). -/
def windowCloseRead (c : Nat) : Nat × Nat := (c, 0)

/-- Events on the shared counter.  Because both sides run under
`geigerMux`, every event is atomic and a history is a sequence of such
events. -/
inductive GeigerEvent
  | pulse
  | read

/-- One atomic event applied to (counter, list of observations made by
window-close reads so far). -/
def geigerStep : Nat × List Nat → GeigerEvent → Nat × List Nat
  | (c, obs), .pulse => (onGeigerPulse c, obs)
  | (c, obs), .read =>
    let r := windowCloseRead c
    (r.2, obs ++ [r.1])

/-- Run a history of atomic events from counter value 0 with no
observations. -/
def runGeiger (evs : List GeigerEvent) : Nat × List Nat :=
  evs.foldl geigerStep (0, [])

/-! ## Air-quality proxy (`gasToVoc`) -/

/-- Function `gasToVoc` (part_001 lines 235-243), the pure mapping from gas
resistance (Ohms) to the pseudo-VOC value.  The C `log10` is modelled by
`Real.logb 10`; the two sequential caps mirror the source's two `if`
statements. -/
noncomputable def gasToVoc (gasOhms : ℝ) : ℝ :=
  if gasOhms ≤ 0 then 150
  else
    let logVal := Real.logb 10 gasOhms
    let voc := 50 + logVal * 80
    let voc := if voc < 50 then 50 else voc
    if voc > 800 then 800 else voc

/-- The claim's own formula, for the refinement comparison:
`clamp(50 + 80*log10(gasOhms), 50, 800)`, with a fixed default of 150 for
inputs `≤ 0`. -/
noncomputable def gasToVocSpec (gasOhms : ℝ) : ℝ :=
  if gasOhms ≤ 0 then 150
  else max 50 (min (50 + 80 * Real.logb 10 gasOhms) 800)

/-! ## Time bootstrap and sync (`bootstrapTimeIfNeeded`, `trySyncTimeNtp`,
`ensureTimeSynced`) -/

/-- The plausibility threshold used throughout the source: an epoch below
`1700000000` is treated as "clearly not a real wall clock". -/
def PLAUSIBLE_EPOCH : Nat := 1700000000

/-- Environment for the time functions: `now` is the current system clock
(epoch seconds, `time(nullptr)`); `compileEpoch` is `mktime` of
`__DATE__`/`__TIME__`, `none` when `sscanf`/month parsing fails;
`ntpEpoch` is the epoch reported by a successful `getLocalTime` poll
within the 10-second NTP window, `none` when every poll times out. -/
structure TimeEnv where
  now : Nat
  compileEpoch : Option Nat
  ntpEpoch : Option Nat

/-- Function `bootstrapTimeIfNeeded` (part_001 lines 90-119): keep a plausible
clock; otherwise parse the compile time, reject an implausible one, and
seed the clock (`settimeofday`) from it. -/
def bootstrapTimeIfNeeded (t : TimeEnv) : Bool × TimeEnv :=
  if PLAUSIBLE_EPOCH ≤ t.now then (true, t)
  else
    match t.compileEpoch with
    | none => (false, t)
    | some ce =>
      if ce < PLAUSIBLE_EPOCH then (false, t)
      else (true, { t with now := ce })

/-- Function `trySyncTimeNtp` (part_001 lines 121-137): poll for network time for
up to 10 s; success exactly when a poll observes an epoch at or above the
threshold, which then becomes the clock. -/
def trySyncTimeNtp (t : TimeEnv) : Bool × TimeEnv :=
  match t.ntpEpoch with
  | none => (false, t)
  | some e =>
    if PLAUSIBLE_EPOCH ≤ e then (true, { t with now := e })
    else (false, t)

/-- Function `ensureTimeSynced` (part_001 lines 139-144): accept a plausible
clock, else try the build-time bootstrap, else try NTP. -/
def ensureTimeSynced (t : TimeEnv) : Bool × TimeEnv :=
  if PLAUSIBLE_EPOCH ≤ t.now then (true, t)
  else
    let r := bootstrapTimeIfNeeded t
    if r.1 then (true, r.2)
    else trySyncTimeNtp r.2

/-! ## Telemetry delivery (`postReading`) -/

/-- The test `code >= 200 && code < 300` from part_001 line 341. -/
def is2xx (code : Int) : Bool := 200 ≤ code && code < 300

/-- Environment for one `postReading` call: the time environment, the
result of `checkInternetReachable`, and for each attempt index the result
of `beginHttps` and the `http.POST` return code (a positive HTTP status,
or a non-positive transport-error code). -/
structure PostEnv where
  time : TimeEnv
  reachable : Bool
  beginOks : Nat → Bool
  codes : Nat → Int

/-- Observable outcome of `postReading`: the returned `Bool`, the number
of `http.POST` calls issued, the `delay(backoffMs)` sleeps performed
between attempts (in order), and the payload timestamp when a payload was
serialized (`none` when the cycle was skipped before building one). -/
structure PostOutcome where
  ok : Bool
  posts : Nat
  delays : List Nat
  timestamp : Option Nat
deriving DecidableEq

/-- The retry loop of `postReading` (part_001 lines 318-354).  `i` is the
zero-based attempt index, `backoff` the current `backoffMs`, `fuel` the
attempts still allowed (entered with 4).  A `beginHttps` failure returns
`false` immediately without a POST; a 2xx POST returns `true`; any other
code falls through, and if attempts remain the loop sleeps `backoff` and
doubles it, capped at 8000. -/
def postLoop (beginOks : Nat → Bool) (codes : Nat → Int) :
    Nat → Nat → Nat → Bool × Nat × List Nat
  | _, _, 0 => (false, 0, [])
  | i, backoff, fuel + 1 =>
    if beginOks i then
      if is2xx (codes i) then (true, 1, [])
      else if fuel = 0 then (false, 1, [])
      else
        let r := postLoop beginOks codes (i + 1) (min (backoff * 2) 8000) fuel
        (r.1, r.2.1 + 1, backoff :: r.2.2)
    else (false, 0, [])

/-- Function `postReading` (part_001 lines 287-356).  Wi-Fi reconnection (line
288) cannot leave the link down (the source retries unboundedly), so it is not a
skip condition.  `ensureTimeSynced` runs first; an unreachable host or an
untrusted clock skips the cycle with no POST; otherwise the payload is
serialized with the current epoch as timestamp and the retry loop runs
with `maxAttempts = 4`, `backoffMs = 1000`. -/
def postReading (env : PostEnv) : PostOutcome :=
  let r := ensureTimeSynced env.time
  if env.reachable = false then ⟨false, 0, [], none⟩
  else if r.1 = false then ⟨false, 0, [], none⟩
  else
    let l := postLoop env.beginOks env.codes 0 1000 4
    ⟨l.1, l.2.1, l.2.2, some r.2.now⟩

/-! ## Wi-Fi connection (`connectWiFi`) -/

/-- Delay between status polls inside one connect round (part_001 line
58). -/
def WIFI_POLL_DELAY_MS : Nat := 250

/-- Delay before retrying the whole connect sequence (part_001 line 73). -/
def WIFI_RETRY_DELAY_MS : Nat := 3000

/-- One round of `connectWiFi`: `polls k` is the link status observed by
the `k`-th evaluation of the `while` guard, `final` the status observed by
the `if` after the loop. -/
structure WifiRound where
  polls : Nat → Bool
  final : Bool

/-- The `while (status != CONNECTED && retries < 40)` loop (part_001
lines 57-61), returning the number of `delay(250)` sleeps performed:
polling stops at the first connected status or after 40 sleeps. -/
def pollStatusLoop (s : Nat → Bool) : Nat → Nat → Nat
  | i, 0 => i
  | i, fuel + 1 => if s i then i else pollStatusLoop s (i + 1) fuel

/-- Sleeps performed in one round; the retry ceiling is 40. -/
def pollRetries (r : WifiRound) : Nat := pollStatusLoop r.polls 0 40

/-- What `connectWiFi` has established when it returns. -/
structure ConnResult where
  connected : Bool
  dnsSet : Bool

/-- Function `connectWiFi` (part_001 lines 52-76), round `k` onward with `fuel`
rounds of budget.  A round polls (timing only), then decides on a fresh
status read: on success it sets the DNS resolvers 1.1.1.1 / 8.8.8.8 and
returns; on failure it sleeps 3 s and re-runs the whole sequence (the
source recursion).  `none` means the budget ran out with the device still
retrying — the source never returns along that path. -/
def connectWiFiAux (rounds : Nat → WifiRound) : Nat → Nat → Option ConnResult
  | _, 0 => none
  | k, fuel + 1 =>
    if (rounds k).final then some ⟨(rounds k).final, true⟩
    else connectWiFiAux rounds (k + 1) fuel

/-- Entry point of `connectWiFi`: round 0. -/
def connectWiFi (rounds : Nat → WifiRound) (fuel : Nat) : Option ConnResult :=
  connectWiFiAux rounds 0 fuel

/-! ## Control loop (`loop`) -/

/-- Build-time configuration constants from `config.h` (not part of the
given sources; only their use sites in part_001 are): the Geiger
accumulation window length and the counts-per-minute to µSv/h conversion
factor. -/
structure Config where
  geigerWindowMs : Nat
  geigerCpmPerUsvh : ℚ

/-- The firmware's global last-known-good state (part_001 lines 21-40)
as carried across loop cycles. -/
structure LoopState where
  lastPm25 : ℚ
  lastPm10 : ℚ
  lastTempC : ℚ
  lastHum : ℚ
  lastPress : ℚ
  lastGas : ℚ
  lastRadiationUsvh : ℚ
  geigerPulses : Nat
  geigerWindowStart : Nat
deriving DecidableEq

/-- Boot values: lines 21-27 initialise the last-known-good variables,
line 38 the pulse counter, and `setup` (line 365) sets
`geigerWindowStart = bootMs`. -/
def initState (bootMs : Nat) : LoopState :=
  { lastPm25 := 12, lastPm10 := 0, lastTempC := 24, lastHum := 55,
    lastPress := 1010, lastGas := 100000, lastRadiationUsvh := 0,
    geigerPulses := 0, geigerWindowStart := bootMs }

/-- Per-cycle environment of `loop`: `bmeAttempt` is `some` values
exactly when the guarded BME read (`bmeReady`, past warmup, and
`readBME` succeeding, lines 412-417) delivers them; `sdsBytes` the serial
bytes available to `readSDS` this cycle; `nowMs` the `millis()` read at
the Geiger window check (line 451); `newPulses` the interrupt increments
since the previous cycle. -/
structure SenseEnv where
  bmeAttempt : Option (ℚ × ℚ × ℚ × ℚ)
  sdsBytes : List Nat
  nowMs : Nat
  newPulses : Nat

/-- The Geiger window-close test `now - geigerWindowStart >= GEIGER_WINDOW_MS`
(line 452); `millis()` is modelled as monotonic. -/
def windowElapsed (cfg : Config) (s : LoopState) (now : Nat) : Bool :=
  cfg.geigerWindowMs ≤ now - s.geigerWindowStart

/-- State update of one `loop` cycle (part_001 lines 396-463): BME values
are overwritten only by a successful guarded read, PM values only by a
decoded frame, and when the pulse window has elapsed the counter is
read-and-reset and converted `pulses * 60000 / windowMs` to CPM and then
through `GEIGER_CPM_PER_USVH` to µSv/h. -/
def loopNext (cfg : Config) (s : LoopState) (env : SenseEnv) : LoopState :=
  let bme := env.bmeAttempt.getD (s.lastTempC, s.lastHum, s.lastPress, s.lastGas)
  let pm := (readSDS env.sdsBytes).getD (s.lastPm25, s.lastPm10)
  let pulses := (s.geigerPulses + env.newPulses) % UINT32_MOD
  if windowElapsed cfg s env.nowMs then
    let cpm : ℚ := (pulses * 60000 : ℚ) / (cfg.geigerWindowMs : ℚ)
    { lastTempC := bme.1, lastHum := bme.2.1, lastPress := bme.2.2.1,
      lastGas := bme.2.2.2, lastPm25 := pm.1, lastPm10 := pm.2,
      lastRadiationUsvh := cpm / cfg.geigerCpmPerUsvh,
      geigerPulses := 0, geigerWindowStart := env.nowMs }
  else
    { lastTempC := bme.1, lastHum := bme.2.1, lastPress := bme.2.2.1,
      lastGas := bme.2.2.2, lastPm25 := pm.1, lastPm10 := pm.2,
      lastRadiationUsvh := s.lastRadiationUsvh,
      geigerPulses := pulses, geigerWindowStart := s.geigerWindowStart }

/-- The JSON `data` object plus the values feeding it (part_001 lines
302-311 together with the locals of `loop` at line 466): after the cycle's
updates, every argument passed to `postReading` equals the corresponding
field of the updated state, and `voc = gasToVoc(gas)` (line 464). -/
structure Payload where
  radiation_cpm : ℚ
  pm25 : ℚ
  air_temp_c : ℚ
  humidity : ℚ
  pressure_hpa : ℚ
  voc : ℝ

/-- Payload assembly for the cycle that produced state `s`. -/
noncomputable def mkPayload (s : LoopState) : Payload :=
  { radiation_cpm := s.lastRadiationUsvh, pm25 := s.lastPm25,
    air_temp_c := s.lastTempC, humidity := s.lastHum,
    pressure_hpa := s.lastPress, voc := gasToVoc (s.lastGas : ℝ) }

/-- One full cycle: sensor/state update plus the delivery attempt.  The
source discards `postReading`'s return value (line 466), so the next
cycle's state is the sensor update alone. -/
def loopCycle (cfg : Config) (s : LoopState) (env : SenseEnv) (penv : PostEnv) :
    LoopState × PostOutcome :=
  (loopNext cfg s env, postReading penv)

/-- Iterated cycles from a start state under a per-cycle environment. -/
def runLoop (cfg : Config) (s0 : LoopState) (envs : Nat → SenseEnv) : Nat → LoopState
  | 0 => s0
  | n + 1 => loopNext cfg (runLoop cfg s0 envs n) (envs n)

/-! ## Theorems -/

/-- The result of `sdsScanAux` does not depend on the fuel, as long as the
fuel covers the stream length. -/
theorem sdsScanAux_congr :
    ∀ (f₁ f₂ : Nat) (l : List Nat), l.length ≤ f₁ → l.length ≤ f₂ →
      sdsScanAux f₁ l = sdsScanAux f₂ l := by
  intro f₁
  induction f₁ with
  | zero =>
    intro f₂ l h₁ _
    have hl : l = [] := List.length_eq_zero.mp (Nat.le_zero.mp h₁)
    subst hl
    cases f₂ <;> rfl
  | succ f ih =>
    intro f₂ l h₁ h₂
    cases l with
    | nil => cases f₂ <;> rfl
    | cons b rest =>
      simp only [List.length_cons] at h₁ h₂
      obtain ⟨g, rfl⟩ : ∃ g, f₂ = g + 1 := ⟨f₂ - 1, by omega⟩
      simp only [sdsScanAux]
      by_cases hb : b = SDS_HEADER1
      · simp only [hb, if_true]
        by_cases h9 : 9 ≤ rest.length
        · simp only [h9, if_true]
          by_cases hv : sdsFrameValid rest
          · simp [hv]
          · simp only [hv, if_false]
            apply ih
            · simp only [List.length_drop]; omega
            · simp only [List.length_drop]; omega
        · simp [h9]
      · simp only [hb, if_false]
        exact ih g rest (by omega) (by omega)

/-- Unfolding the scan at a header byte followed by a valid frame body. -/
theorem sdsScan_cons_header_valid (rest : List Nat) (h9 : 9 ≤ rest.length)
    (hv : sdsFrameValid rest) :
    sdsScan (SDS_HEADER1 :: rest) =
      some (rest.getD 1 0 + 256 * rest.getD 2 0,
            rest.getD 3 0 + 256 * rest.getD 4 0) := by
  unfold sdsScan
  rw [List.length_cons]
  simp only [sdsScanAux, if_true, h9, hv, if_pos rfl]

/-- Scanning skips a non-header byte. -/
theorem sdsScan_cons_of_ne {b : Nat} (rest : List Nat) (hb : b ≠ SDS_HEADER1) :
    sdsScan (b :: rest) = sdsScan rest := by
  unfold sdsScan
  rw [show (b :: rest).length = rest.length + 1 from rfl]
  simp only [sdsScanAux, hb, if_false]

/-- C2 (counterexample): the spec's universally-quantified resync property
fails.  The garbage prefix `[0xAA]` contains no well-formed frame, the ten
bytes that follow are a well-formed frame carrying `pm25Raw = 2`,
`pm10Raw = 3`, yet `readSDS` decodes nothing at all from the stream — the
stray header byte makes the scanner consume the first nine bytes of the
true frame, and resynchronisation never recovers within this stream.  The
claim would require the result `some (2/10, 3/10)`. -/
theorem readSDS_garbage_resync_cex :
    streamHasFrame [0xAA] = false ∧
      sdsWellFormed [0xAA, 0xC0, 2, 0, 3, 0, 0, 0, 5, 0xAB] = true ∧
      readSDS ([0xAA] ++ [0xAA, 0xC0, 2, 0, 3, 0, 0, 0, 5, 0xAB]) = none := by
  refine ⟨by decide, by decide, ?_⟩
  decide

/-- C2 (amended): if no byte of the garbage prefix equals the header byte
`0xAA`, the decoder accepts exactly the following well-formed frame and
returns the two little-endian words divided by ten. -/
theorem readSDS_accepts_after_headerfree_garbage
    (g : List Nat) (d0 d1 d2 d3 d4 d5 ck : Nat)
    (hg : ∀ b ∈ g, b ≠ SDS_HEADER1)
    (hck : (d0 + d1 + d2 + d3 + d4 + d5) % 256 = ck) :
    readSDS (g ++ [SDS_HEADER1, SDS_HEADER2, d0, d1, d2, d3, d4, d5, ck, SDS_TAIL]) =
      some (((d0 + 256 * d1 : Nat) : ℚ) / 10, ((d2 + 256 * d3 : Nat) : ℚ) / 10) := by
  induction g with
  | nil =>
    have hv : sdsFrameValid [SDS_HEADER2, d0, d1, d2, d3, d4, d5, ck, SDS_TAIL] := by
      refine ⟨rfl, rfl, ?_⟩
      simp only [List.getD_cons_succ, List.getD_cons_zero]
      exact hck
    rw [List.nil_append, readSDS,
      sdsScan_cons_header_valid [SDS_HEADER2, d0, d1, d2, d3, d4, d5, ck, SDS_TAIL]
        Nat.le.refl hv]
    simp only [List.getD_cons_succ, List.getD_cons_zero, Option.map_some']
  | cons b g ih =>
    have hb : b ≠ SDS_HEADER1 := hg b (List.mem_cons_self b g)
    rw [List.cons_append, readSDS, sdsScan_cons_of_ne _ hb]
    exact ih (fun x hx => hg x (List.mem_cons_of_mem b hx))

/-- Witness for the amended C2 theorem at a concrete input. -/
theorem readSDS_accepts_after_headerfree_garbage_witness :
    readSDS ([1, 2, 3] ++ [SDS_HEADER1, SDS_HEADER2, 2, 0, 3, 0, 0, 0, 5, SDS_TAIL]) =
      some (((2 + 256 * 0 : Nat) : ℚ) / 10, ((3 + 256 * 0 : Nat) : ℚ) / 10) :=
  readSDS_accepts_after_headerfree_garbage [1, 2, 3] 2 0 3 0 0 0 5
    (by decide) (by decide)

/-- C3: a frame whose secondary header, tail, or checksum does not match
is rejected without error and without producing any output — the scan of
the whole stream simply equals the scan of the stream past the nine
consumed bytes, so no frame is acted upon partially and scanning for the
next header byte resumes there. -/
theorem sdsScan_rejects_invalid (rest : List Nat) (h9 : 9 ≤ rest.length)
    (hbad : ¬ sdsFrameValid rest) :
    sdsScan (SDS_HEADER1 :: rest) = sdsScan (rest.drop 9) := by
  unfold sdsScan
  rw [show (SDS_HEADER1 :: rest).length = rest.length + 1 from rfl]
  simp only [sdsScanAux, if_true, h9, hbad, if_false]
  apply sdsScanAux_congr <;> simp only [List.length_drop] <;> omega

/-- Witness for C3: a frame with a bad checksum (sum of data bytes is 1,
checksum byte claims 99) is skipped and scanning resumes after it. -/
theorem sdsScan_rejects_invalid_witness :
    sdsScan (SDS_HEADER1 :: [SDS_HEADER2, 1, 0, 0, 0, 0, 0, 99, SDS_TAIL]) =
      sdsScan ([SDS_HEADER2, 1, 0, 0, 0, 0, 0, 99, SDS_TAIL].drop 9) :=
  sdsScan_rejects_invalid [SDS_HEADER2, 1, 0, 0, 0, 0, 0, 99, SDS_TAIL]
    (by decide) (by decide)

/-- Applying `N` pulses starting from counter `c < 2^32` leave the counter at
`(c + N) % 2^32` and make no observation. -/
theorem geiger_pulses_accumulate (N : Nat) :
    ∀ (c : Nat) (obs : List Nat), c < UINT32_MOD →
      (List.replicate N GeigerEvent.pulse).foldl geigerStep (c, obs) =
        ((c + N) % UINT32_MOD, obs) := by
  induction N with
  | zero =>
    intro c obs hc
    simp only [List.replicate, List.foldl_nil, Nat.add_zero, Nat.mod_eq_of_lt hc]
  | succ n ih =>
    intro c obs hc
    simp only [List.replicate, List.foldl_cons]
    rw [show geigerStep (c, obs) GeigerEvent.pulse = (onGeigerPulse c, obs) from rfl,
      ih (onGeigerPulse c) obs (Nat.mod_lt _ (by norm_num [UINT32_MOD]))]
    unfold onGeigerPulse
    rw [Nat.mod_add_mod]
    have hcn : c + 1 + n = c + (n + 1) := by omega
    rw [hcn]

/-- C6: pulse accumulation is linearizable with the window-close
read-and-reset.  For any `N < 2^32` atomic increments arriving strictly
before a window-close read, that read observes exactly `N` and resets the
counter, and a further read before any further pulse observes `0`. -/
theorem geiger_linearizable (N : Nat) (hN : N < UINT32_MOD) :
    runGeiger (List.replicate N GeigerEvent.pulse ++
        [GeigerEvent.read, GeigerEvent.read]) = (0, [N, 0]) := by
  unfold runGeiger
  rw [List.foldl_append, geiger_pulses_accumulate N 0 [] (by norm_num [UINT32_MOD])]
  simp only [Nat.zero_add, Nat.mod_eq_of_lt hN, List.foldl_cons, List.foldl_nil]
  rfl

/-- Witness for C6 at `N = 3`. -/
theorem geiger_linearizable_witness :
    runGeiger (List.replicate 3 GeigerEvent.pulse ++
        [GeigerEvent.read, GeigerEvent.read]) = (0, [3, 0]) :=
  geiger_linearizable 3 (by norm_num [UINT32_MOD])

/-- C7: `gasToVoc` returns 150, 50, 450 and 610 on gas resistances 0, 1,
100000 and 10000000 respectively, and on every input it agrees with the
spec's formula `clamp(50 + 80*log10(gasOhms), 50, 800)` (resistance `≤ 0`
giving the fixed default 150).  As a pure function it is deterministic and
stateless. -/
theorem gasToVoc_spec :
    gasToVoc 0 = 150 ∧ gasToVoc 1 = 50 ∧ gasToVoc 100000 = 450 ∧
      gasToVoc 10000000 = 610 ∧ ∀ g : ℝ, gasToVoc g = gasToVocSpec g := by
  have hval : ∀ g : ℝ, gasToVoc g = gasToVocSpec g := by
    intro g
    unfold gasToVoc gasToVocSpec
    by_cases hg : g ≤ 0
    · simp [hg]
    · simp only [hg, if_false]
      set v : ℝ := 50 + Real.logb 10 g * 80 with hv
      have hv' : 50 + 80 * Real.logb 10 g = v := by rw [hv]; ring
      rw [hv']
      by_cases h50 : v < 50
      · have h1 : ¬ (50 : ℝ) > 800 := by norm_num
        have h2 : min v 800 = v := min_eq_left (by linarith)
        simp only [h50, if_true, h1, if_false, h2]
        rw [max_eq_left (le_of_lt h50)]
      · simp only [h50, if_false]
        by_cases h800 : v > 800
        · rw [if_pos h800, min_eq_right (le_of_lt h800), max_eq_right (by norm_num)]
        · rw [if_neg h800, min_eq_left (by linarith), max_eq_right (by linarith)]
  have l5 : Real.logb 10 100000 = 5 := by
    rw [show (100000 : ℝ) = 10 ^ (5 : ℕ) by norm_num, Real.logb_pow,
      Real.logb_self_eq_one (by norm_num)]
    norm_num
  have l7 : Real.logb 10 10000000 = 7 := by
    rw [show (10000000 : ℝ) = 10 ^ (7 : ℕ) by norm_num, Real.logb_pow,
      Real.logb_self_eq_one (by norm_num)]
    norm_num
  refine ⟨by simp [gasToVoc], ?_, ?_, ?_, hval⟩
  · unfold gasToVoc
    rw [if_neg (by norm_num)]
    simp only [Real.logb_one]
    norm_num
  · unfold gasToVoc
    rw [if_neg (by norm_num)]
    simp only [l5]
    norm_num
  · unfold gasToVoc
    rw [if_neg (by norm_num)]
    simp only [l7]
    norm_num

/-- C1: per transmission cycle, `postReading` issues at most 4 POST
attempts, and the backoff sleeps inserted between successive failed
attempts follow exactly the sequence 1000, 2000, 4000, 8000 ms (doubling
from 1000 ms, capped at 8000 ms): the sleeps performed are precisely the
first `posts - 1` entries of that sequence.  (With at most 4 attempts at
most three sleeps ever occur, so the 8000 ms cap value is never slept.) -/
theorem post_backoff_spec (env : PostEnv) (hb : ∀ i, env.beginOks i = true) :
    (postReading env).posts ≤ 4 ∧
      (postReading env).delays =
        List.take ((postReading env).posts - 1) [1000, 2000, 4000, 8000] := by
  unfold postReading
  by_cases hr : env.reachable = false
  · simp [hr]
  · simp only [hr, if_false]
    by_cases ht : (ensureTimeSynced env.time).1 = false
    · simp [ht]
    · simp only [ht, if_false]
      by_cases h0 : is2xx (env.codes 0) <;> by_cases h1 : is2xx (env.codes 1) <;>
        by_cases h2 : is2xx (env.codes 2) <;> by_cases h3 : is2xx (env.codes 3) <;>
        simp [postLoop, hb, h0, h1, h2, h3]

/-- Witness for C1: all four attempts fail, so exactly the sleeps 1000,
2000, 4000 ms happen. -/
theorem post_backoff_spec_witness :
    (postReading ⟨⟨1800000000, none, none⟩, true, fun _ => true, fun _ => 500⟩).posts ≤ 4 ∧
      (postReading ⟨⟨1800000000, none, none⟩, true, fun _ => true, fun _ => 500⟩).delays =
        List.take
          ((postReading ⟨⟨1800000000, none, none⟩, true, fun _ => true, fun _ => 500⟩).posts - 1)
          [1000, 2000, 4000, 8000] :=
  post_backoff_spec ⟨⟨1800000000, none, none⟩, true, fun _ => true, fun _ => 500⟩
    (fun _ => rfl)

/-- C4: if `ensureTimeSynced` fails (clock implausible, bootstrap failed,
NTP failed), `postReading` performs no HTTP POST for the cycle and
returns failure; whenever `ensureTimeSynced` succeeds the resulting clock
is at or above the plausibility threshold 1700000000; and when the
build-time bootstrap alone succeeds (clock implausible but compile epoch
at or above the threshold), the timestamp `ce` is accepted into the
payload and transmission proceeds (at least one POST attempt, given the
host is reachable and the HTTPS session opens). -/
theorem postReading_time_gate (env : PostEnv) (ce : Nat) :
    ((ensureTimeSynced env.time).1 = false →
        (postReading env).ok = false ∧ (postReading env).posts = 0) ∧
      ((ensureTimeSynced env.time).1 = true →
        PLAUSIBLE_EPOCH ≤ (ensureTimeSynced env.time).2.now) ∧
      (env.time.now < PLAUSIBLE_EPOCH → env.time.compileEpoch = some ce →
        PLAUSIBLE_EPOCH ≤ ce → env.reachable = true → env.beginOks 0 = true →
        (postReading env).timestamp = some ce ∧ 1 ≤ (postReading env).posts) := by
  refine ⟨?_, ?_, ?_⟩
  · intro ht
    unfold postReading
    by_cases hr : env.reachable = false
    · simp [hr]
    · simp [hr, ht]
  · intro ht
    unfold ensureTimeSynced at ht ⊢
    by_cases h1 : PLAUSIBLE_EPOCH ≤ env.time.now
    · rw [if_pos h1]
      exact h1
    · simp only [h1, if_false] at ht ⊢
      unfold bootstrapTimeIfNeeded at ht ⊢
      simp only [h1, if_false] at ht ⊢
      match hce : env.time.compileEpoch with
      | none =>
        simp only [hce] at ht ⊢
        unfold trySyncTimeNtp at ht ⊢
        match hnt : env.time.ntpEpoch with
        | none => simp [hnt] at ht
        | some e =>
          simp only [hnt] at ht ⊢
          by_cases he : PLAUSIBLE_EPOCH ≤ e
          · simp [he]
          · simp [he] at ht
      | some c =>
        simp only [hce] at ht ⊢
        by_cases hc : c < PLAUSIBLE_EPOCH
        · simp only [hc, if_true] at ht ⊢
          unfold trySyncTimeNtp at ht ⊢
          match hnt : env.time.ntpEpoch with
          | none => simp [hnt] at ht
          | some e =>
            simp only [hnt] at ht ⊢
            by_cases he : PLAUSIBLE_EPOCH ≤ e
            · simp [he]
            · simp [he] at ht
        · simp [hc]
          omega
  · intro hnow hce hceth hr hb0
    have hens : ensureTimeSynced env.time =
        (true, { env.time with now := ce }) := by
      unfold ensureTimeSynced bootstrapTimeIfNeeded
      have h1 : ¬ PLAUSIBLE_EPOCH ≤ env.time.now := by omega
      have h2 : ¬ ce < PLAUSIBLE_EPOCH := by omega
      simp [h1, hce, h2]
    unfold postReading
    rw [hens]
    simp only [hr]
    constructor
    · simp
    · simp only [Bool.true_eq_false, if_false, reduceIte]
      unfold postLoop
      simp only [hb0, if_true]
      by_cases h2 : is2xx (env.codes 0) = true
      · simp [h2]
      · simp only [h2]
        simp

/-- Witness for C4: with an implausible clock (epoch 100), a plausible
compile epoch and no NTP, the bootstrap tier alone makes the cycle
proceed with the compile epoch as timestamp. -/
theorem postReading_time_gate_witness :
    (postReading ⟨⟨100, some 1800000000, none⟩, true, fun _ => true,
        fun _ => 204⟩).timestamp = some 1800000000 ∧
      1 ≤ (postReading ⟨⟨100, some 1800000000, none⟩, true, fun _ => true,
        fun _ => 204⟩).posts :=
  (postReading_time_gate ⟨⟨100, some 1800000000, none⟩, true, fun _ => true,
      fun _ => 204⟩ 1800000000).2.2 (by decide) rfl (by decide) rfl rfl

/-- With every `beginHttps` succeeding, the retry loop reports success
exactly when some attempt within its budget yields a 2xx code. -/
theorem postLoop_ok_iff (b : Nat → Bool) (c : Nat → Int) (hb : ∀ i, b i = true) :
    ∀ (fuel i backoff : Nat),
      ((postLoop b c i backoff fuel).1 = true ↔
        ∃ j, j < fuel ∧ is2xx (c (i + j)) = true) := by
  intro fuel
  induction fuel with
  | zero =>
    intro i backoff
    simp [postLoop]
  | succ f ih =>
    intro i backoff
    simp only [postLoop, hb, if_true]
    by_cases h2 : is2xx (c i) = true
    · simp only [h2, if_true]
      constructor
      · intro _
        exact ⟨0, Nat.succ_pos f, by simpa using h2⟩
      · intro _
        trivial
    · by_cases hf : f = 0
      · subst hf
        simp only [h2, Bool.false_eq_true, if_false, if_pos rfl]
        constructor
        · intro h
          simp at h
        · rintro ⟨j, hj, hx⟩
          have hj0 : j = 0 := by omega
          subst hj0
          rw [Nat.add_zero] at hx
          exact absurd hx h2
      · simp only [h2, Bool.false_eq_true, if_false, hf]
        rw [ih (i + 1)]
        constructor
        · rintro ⟨j, hj, hx⟩
          exact ⟨j + 1, by omega, by rwa [show i + (j + 1) = i + 1 + j by omega]⟩
        · rintro ⟨j, hj, hx⟩
          cases j with
          | zero =>
            rw [Nat.add_zero] at hx
            exact absurd hx h2
          | succ j' =>
            exact ⟨j', by omega, by rwa [show i + 1 + j' = i + (j' + 1) by omega]⟩

/-- With every `beginHttps` succeeding and no attempt yielding 2xx, the
loop exhausts its whole budget and fails. -/
theorem postLoop_allfail (b : Nat → Bool) (c : Nat → Int) (hb : ∀ i, b i = true) :
    ∀ (fuel i backoff : Nat), (∀ j, j < fuel → is2xx (c (i + j)) = false) →
      (postLoop b c i backoff fuel).1 = false ∧
        (postLoop b c i backoff fuel).2.1 = fuel := by
  intro fuel
  induction fuel with
  | zero =>
    intro i backoff _
    simp [postLoop]
  | succ f ih =>
    intro i backoff hall
    have h2 : is2xx (c i) = false := by
      simpa using hall 0 (Nat.succ_pos f)
    simp only [postLoop, hb, if_true, h2, Bool.false_eq_true, if_false]
    by_cases hf : f = 0
    · subst hf
      simp
    · simp only [hf, if_false]
      have := ih (i + 1) (min (backoff * 2) 8000)
        (fun j hj => by
          have := hall (j + 1) (by omega)
          rwa [show i + (j + 1) = i + 1 + j by omega] at this)
      exact ⟨this.1, by rw [this.2]⟩

/-- C5: with the clock trusted, the host reachable and the HTTPS session
opening on each attempt, `postReading` succeeds exactly when some of the
(at most 4) POST attempts yields a status in [200, 300); when no attempt
does, all 4 attempts are consumed and the cycle ends in failure; and the
cycle's outcome is not queued: the state carried to the next cycle is
independent of the delivery environment and of its result. -/
theorem post_success_iff_2xx (env : PostEnv)
    (ht : (ensureTimeSynced env.time).1 = true)
    (hr : env.reachable = true)
    (hb : ∀ i, env.beginOks i = true) :
    ((postReading env).ok = true ↔ ∃ j, j < 4 ∧ is2xx (env.codes j) = true) ∧
      ((∀ j, j < 4 → is2xx (env.codes j) = false) →
        (postReading env).posts = 4 ∧ (postReading env).ok = false) ∧
      (∀ (cfg : Config) (s : LoopState) (senv : SenseEnv) (p₁ p₂ : PostEnv),
        (loopCycle cfg s senv p₁).1 = (loopCycle cfg s senv p₂).1) := by
  have hpost : postReading env =
      ⟨(postLoop env.beginOks env.codes 0 1000 4).1,
       (postLoop env.beginOks env.codes 0 1000 4).2.1,
       (postLoop env.beginOks env.codes 0 1000 4).2.2,
       some (ensureTimeSynced env.time).2.now⟩ := by
    unfold postReading
    simp [hr, ht]
  refine ⟨?_, ?_, fun cfg s senv p₁ p₂ => rfl⟩
  · rw [hpost]
    simpa using postLoop_ok_iff env.beginOks env.codes hb 4 0 1000
  · intro hall
    rw [hpost]
    have := postLoop_allfail env.beginOks env.codes hb 4 0 1000
      (fun j hj => by simpa using hall j hj)
    exact ⟨this.2, this.1⟩

/-- Witness for C5: the third attempt returns 201, so delivery succeeds. -/
theorem post_success_iff_2xx_witness :
    ((postReading ⟨⟨1800000000, none, none⟩, true, fun _ => true,
        fun j => if j = 2 then 201 else 503⟩).ok = true ↔
      ∃ j, j < 4 ∧ is2xx ((fun j => if j = 2 then (201 : Int) else 503) j) = true) ∧
      ((∀ j, j < 4 →
          is2xx ((fun j => if j = 2 then (201 : Int) else 503) j) = false) →
        (postReading ⟨⟨1800000000, none, none⟩, true, fun _ => true,
          fun j => if j = 2 then 201 else 503⟩).posts = 4 ∧
        (postReading ⟨⟨1800000000, none, none⟩, true, fun _ => true,
          fun j => if j = 2 then 201 else 503⟩).ok = false) ∧
      (∀ (cfg : Config) (s : LoopState) (senv : SenseEnv) (p₁ p₂ : PostEnv),
        (loopCycle cfg s senv p₁).1 = (loopCycle cfg s senv p₂).1) :=
  post_success_iff_2xx ⟨⟨1800000000, none, none⟩, true, fun _ => true,
    fun j => if j = 2 then 201 else 503⟩ (by decide) rfl (fun _ => rfl)

/-- The poll loop performs at most 40 sleeps from any start index. -/
theorem pollStatusLoop_le (s : Nat → Bool) :
    ∀ (fuel i : Nat), pollStatusLoop s i fuel ≤ i + fuel := by
  intro fuel
  induction fuel with
  | zero =>
    intro i
    simp [pollStatusLoop]
  | succ f ih =>
    intro i
    unfold pollStatusLoop
    by_cases hs : s i = true
    · simp only [hs, if_true]
      omega
    · simp only [hs, Bool.false_eq_true, if_false]
      have := ih (i + 1)
      omega

/-- C8: `connectWiFi` never returns while the link is down.  Each round
polls the status at most 40 times (at 250 ms intervals); whenever the
call returns, the deciding status read was connected and the DNS
resolvers have been set; and the outer retry is unbounded: it never
produces a failure value, and any round observing a connected link within
the budget makes the call return. -/
theorem connectWiFi_spec (rounds : Nat → WifiRound) (fuel : Nat) :
    (∀ res, connectWiFi rounds fuel = some res →
        res.connected = true ∧ res.dnsSet = true) ∧
      (∀ r : WifiRound, pollRetries r ≤ 40) ∧
      ((∃ m, m < fuel ∧ (rounds m).final = true) →
        connectWiFi rounds fuel ≠ none) := by
  have haux : ∀ (f k : Nat) (res : ConnResult),
      connectWiFiAux rounds k f = some res →
        res.connected = true ∧ res.dnsSet = true := by
    intro f
    induction f with
    | zero =>
      intro k res h
      simp [connectWiFiAux] at h
    | succ f' ih =>
      intro k res h
      unfold connectWiFiAux at h
      by_cases hk : (rounds k).final = true
      · simp only [hk, if_true] at h
        cases h
        exact ⟨rfl, rfl⟩
      · simp only [hk, Bool.false_eq_true, if_false] at h
        exact ih (k + 1) res h
  have hterm : ∀ (f k : Nat), (∃ m, m < f ∧ (rounds (k + m)).final = true) →
      connectWiFiAux rounds k f ≠ none := by
    intro f
    induction f with
    | zero =>
      rintro k ⟨m, hm, _⟩
      omega
    | succ f' ih =>
      rintro k ⟨m, hm, hfin⟩
      unfold connectWiFiAux
      by_cases hk : (rounds k).final = true
      · simp [hk]
      · simp only [hk, Bool.false_eq_true, if_false]
        apply ih (k + 1)
        refine ⟨m - 1, by
          cases m with
          | zero => rw [Nat.add_zero] at hfin; exact absurd hfin hk
          | succ m' => omega, ?_⟩
        cases m with
        | zero => rw [Nat.add_zero] at hfin; exact absurd hfin hk
        | succ m' =>
          rw [show k + 1 + (m' + 1 - 1) = k + (m' + 1) by omega]
          exact hfin
  refine ⟨fun res h => haux fuel 0 res h, ?_, ?_⟩
  · intro r
    have := pollStatusLoop_le r.polls 40 0
    unfold pollRetries
    omega
  · rintro ⟨m, hm, hfin⟩
    exact hterm fuel 0 ⟨m, hm, by simpa using hfin⟩

/-- Witness for C8: a two-round budget whose second round sees the link
up yields a returned, connected, DNS-configured result. -/
theorem connectWiFi_spec_witness :
    (∀ res, connectWiFi (fun k => ⟨fun _ => false, k = 1⟩) 2 = some res →
        res.connected = true ∧ res.dnsSet = true) ∧
      (∀ r : WifiRound, pollRetries r ≤ 40) ∧
      ((∃ m, m < 2 ∧ ((fun k : Nat => (⟨fun _ => false, k = 1⟩ : WifiRound)) m).final = true) →
        connectWiFi (fun k => ⟨fun _ => false, k = 1⟩) 2 ≠ none) :=
  connectWiFi_spec (fun k => ⟨fun _ => false, k = 1⟩) 2

/-- C9: the payload field named `radiation_cpm` actually carries the dose
rate in µSv/h: when the accumulation window closes, the transmitted value
is the window's counts-per-minute `pulses * 60000 / windowMs` divided by
`GEIGER_CPM_PER_USVH`; in a cycle in which no window closes it is the
previous window's dose rate. -/
theorem radiation_field_is_dose_rate (cfg : Config) (s : LoopState) (env : SenseEnv) :
    (windowElapsed cfg s env.nowMs = true →
        (mkPayload (loopNext cfg s env)).radiation_cpm =
          (((((s.geigerPulses + env.newPulses) % UINT32_MOD : Nat) : ℚ) * 60000) /
              (cfg.geigerWindowMs : ℚ)) / cfg.geigerCpmPerUsvh) ∧
      (windowElapsed cfg s env.nowMs = false →
        (mkPayload (loopNext cfg s env)).radiation_cpm = s.lastRadiationUsvh) := by
  constructor
  · intro hw
    unfold loopNext
    rw [if_pos hw]
    rfl
  · intro hw
    unfold loopNext
    have hnw : ¬ (windowElapsed cfg s env.nowMs = true) := by simp [hw]
    rw [if_neg hnw]
    rfl

/-- Witness for C9: a 10000 ms window closing with 7 accumulated pulses
under a conversion factor of 151 CPM per µSv/h. -/
theorem radiation_field_is_dose_rate_witness :
    (mkPayload (loopNext ⟨10000, 151⟩ (initState 0) ⟨none, [], 10000, 7⟩)).radiation_cpm =
      ((((((initState 0).geigerPulses + 7) % UINT32_MOD : Nat) : ℚ) * 60000) /
          ((10000 : Nat) : ℚ)) / 151 :=
  (radiation_field_is_dose_rate ⟨10000, 151⟩ (initState 0) ⟨none, [], 10000, 7⟩).1
    (by decide)

/-- C10: the last-known-good variables are seeded at boot with the fixed
constants pm25 = 12.0, pm10 = 0.0, temperature = 24.0 °C, humidity = 55 %,
pressure = 1010.0 hPa, gas = 100000 Ω, radiation = 0.0; each is
overwritten only by a successful validated read of its own sensor (BME
fields only by a successful guarded BME read, PM fields only by a decoded
SDS frame, the dose rate only by a window close); consequently any
payload assembled before the first successful read of each sensor still
reports the boot constants rather than an absence marker. -/
theorem boot_constants_last_known_good :
    (∀ bootMs : Nat, initState bootMs =
        ⟨12, 0, 24, 55, 1010, 100000, 0, 0, bootMs⟩) ∧
      (∀ (cfg : Config) (s : LoopState) (env : SenseEnv),
        env.bmeAttempt = none →
          (loopNext cfg s env).lastTempC = s.lastTempC ∧
          (loopNext cfg s env).lastHum = s.lastHum ∧
          (loopNext cfg s env).lastPress = s.lastPress ∧
          (loopNext cfg s env).lastGas = s.lastGas) ∧
      (∀ (cfg : Config) (s : LoopState) (env : SenseEnv),
        readSDS env.sdsBytes = none →
          (loopNext cfg s env).lastPm25 = s.lastPm25 ∧
          (loopNext cfg s env).lastPm10 = s.lastPm10) ∧
      (∀ (cfg : Config) (s : LoopState) (env : SenseEnv),
        windowElapsed cfg s env.nowMs = false →
          (loopNext cfg s env).lastRadiationUsvh = s.lastRadiationUsvh) ∧
      (∀ (cfg : Config) (bootMs : Nat) (envs : Nat → SenseEnv) (n : Nat),
        (∀ i, i < n → (envs i).bmeAttempt = none ∧
            readSDS (envs i).sdsBytes = none ∧
            (envs i).nowMs - bootMs < cfg.geigerWindowMs) →
          (mkPayload (runLoop cfg (initState bootMs) envs n)).pm25 = 12 ∧
          (mkPayload (runLoop cfg (initState bootMs) envs n)).air_temp_c = 24 ∧
          (mkPayload (runLoop cfg (initState bootMs) envs n)).humidity = 55 ∧
          (mkPayload (runLoop cfg (initState bootMs) envs n)).pressure_hpa = 1010 ∧
          (mkPayload (runLoop cfg (initState bootMs) envs n)).radiation_cpm = 0 ∧
          (runLoop cfg (initState bootMs) envs n).lastPm10 = 0 ∧
          (runLoop cfg (initState bootMs) envs n).lastGas = 100000) := by
  have hbme : ∀ (cfg : Config) (s : LoopState) (env : SenseEnv),
      env.bmeAttempt = none →
        (loopNext cfg s env).lastTempC = s.lastTempC ∧
        (loopNext cfg s env).lastHum = s.lastHum ∧
        (loopNext cfg s env).lastPress = s.lastPress ∧
        (loopNext cfg s env).lastGas = s.lastGas := by
    intro cfg s env hb
    unfold loopNext
    rw [hb]
    by_cases hw : windowElapsed cfg s env.nowMs = true
    · rw [if_pos hw]
      exact ⟨rfl, rfl, rfl, rfl⟩
    · rw [if_neg hw]
      exact ⟨rfl, rfl, rfl, rfl⟩
  have hsds : ∀ (cfg : Config) (s : LoopState) (env : SenseEnv),
      readSDS env.sdsBytes = none →
        (loopNext cfg s env).lastPm25 = s.lastPm25 ∧
        (loopNext cfg s env).lastPm10 = s.lastPm10 := by
    intro cfg s env hs
    unfold loopNext
    rw [hs]
    by_cases hw : windowElapsed cfg s env.nowMs = true
    · rw [if_pos hw]
      exact ⟨rfl, rfl⟩
    · rw [if_neg hw]
      exact ⟨rfl, rfl⟩
  have hrad : ∀ (cfg : Config) (s : LoopState) (env : SenseEnv),
      windowElapsed cfg s env.nowMs = false →
        (loopNext cfg s env).lastRadiationUsvh = s.lastRadiationUsvh := by
    intro cfg s env hw
    unfold loopNext
    rw [if_neg (by rw [hw]; exact Bool.false_ne_true)]
  have main : ∀ (cfg : Config) (bootMs : Nat) (envs : Nat → SenseEnv) (n : Nat),
      (∀ i, i < n → (envs i).bmeAttempt = none ∧
          readSDS (envs i).sdsBytes = none ∧
          (envs i).nowMs - bootMs < cfg.geigerWindowMs) →
        (runLoop cfg (initState bootMs) envs n).lastPm25 = 12 ∧
        (runLoop cfg (initState bootMs) envs n).lastTempC = 24 ∧
        (runLoop cfg (initState bootMs) envs n).lastHum = 55 ∧
        (runLoop cfg (initState bootMs) envs n).lastPress = 1010 ∧
        (runLoop cfg (initState bootMs) envs n).lastRadiationUsvh = 0 ∧
        (runLoop cfg (initState bootMs) envs n).lastPm10 = 0 ∧
        (runLoop cfg (initState bootMs) envs n).lastGas = 100000 ∧
        (runLoop cfg (initState bootMs) envs n).geigerWindowStart = bootMs := by
    intro cfg bootMs envs n
    induction n with
    | zero =>
      intro _
      exact ⟨rfl, rfl, rfl, rfl, rfl, rfl, rfl, rfl⟩
    | succ m ih =>
      intro hall
      obtain ⟨h1, h2, h3, h4, h5, h6, h7, h8⟩ := ih (fun i hi => hall i (by omega))
      obtain ⟨hb, hs, hw⟩ := hall m (by omega)
      have hwin : windowElapsed cfg (runLoop cfg (initState bootMs) envs m)
          (envs m).nowMs = false := by
        unfold windowElapsed
        rw [h8]
        simp only [decide_eq_false_iff_not]
        omega
      have hstep : runLoop cfg (initState bootMs) envs (m + 1) =
          { runLoop cfg (initState bootMs) envs m with
            geigerPulses := ((runLoop cfg (initState bootMs) envs m).geigerPulses +
              (envs m).newPulses) % UINT32_MOD } := by
        rw [runLoop]
        unfold loopNext
        rw [if_neg (by rw [hwin]; exact Bool.false_ne_true), hb, hs]
        rfl
      rw [hstep]
      exact ⟨h1, h2, h3, h4, h5, h6, h7, h8⟩
  refine ⟨fun bootMs => rfl, hbme, hsds, hrad, ?_⟩
  intro cfg bootMs envs n hall
  obtain ⟨h1, h2, h3, h4, h5, h6, h7, _⟩ := main cfg bootMs envs n hall
  exact ⟨h1, h2, h3, h4, h5, h6, h7⟩

/-- Witness for C10: one cycle with no successful BME read, no decoded
frame and no window close still transmits the boot constants. -/
theorem boot_constants_last_known_good_witness :
    (mkPayload (runLoop ⟨10000, 151⟩ (initState 5) (fun _ => ⟨none, [7, 7], 900, 3⟩) 1)).pm25 = 12 ∧
      (mkPayload (runLoop ⟨10000, 151⟩ (initState 5) (fun _ => ⟨none, [7, 7], 900, 3⟩) 1)).air_temp_c = 24 ∧
      (mkPayload (runLoop ⟨10000, 151⟩ (initState 5) (fun _ => ⟨none, [7, 7], 900, 3⟩) 1)).humidity = 55 ∧
      (mkPayload (runLoop ⟨10000, 151⟩ (initState 5) (fun _ => ⟨none, [7, 7], 900, 3⟩) 1)).pressure_hpa = 1010 ∧
      (mkPayload (runLoop ⟨10000, 151⟩ (initState 5) (fun _ => ⟨none, [7, 7], 900, 3⟩) 1)).radiation_cpm = 0 ∧
      (runLoop ⟨10000, 151⟩ (initState 5) (fun _ => ⟨none, [7, 7], 900, 3⟩) 1).lastPm10 = 0 ∧
      (runLoop ⟨10000, 151⟩ (initState 5) (fun _ => ⟨none, [7, 7], 900, 3⟩) 1).lastGas = 100000 :=
  (boot_constants_last_known_good.2.2.2.2) ⟨10000, 151⟩ 5 (fun _ => ⟨none, [7, 7], 900, 3⟩) 1
    (fun i hi => ⟨rfl, (by decide : readSDS [7, 7] = none),
      (by decide : (900 : Nat) - 5 < 10000)⟩)

end TurkeyPoint
